import Mathlib

/-!
Verification of the ws-proxy WebSocket tunneling proxy (src/proxy.js).

The per-session behavior of the proxy is embedded as a state machine:
one client-facing WebSocket leg and one upstream-facing leg generate
events (open, message, close, error); the proxy's event handlers are
translated into a `step` function that updates the session state and
emits observable actions (frame sends and close calls on either leg).
The upgrade validator, the upstream handshake header construction and
the token-masking helper are embedded as pure functions.
-/

namespace WsProxy

/-- WebSocket readyState values, as in the `ws` library constants used by
the source (`WebSocket.OPEN` etc.). -/
inductive ReadyState
  | CONNECTING
  | OPEN
  | CLOSING
  | CLOSED
deriving DecidableEq

/-- One WebSocket message unit: an opaque payload tagged binary-or-text.
Mirrors the `(data, isBinary)` pair passed to the source's message
handlers. -/
structure Frame where
  data : String
  isBinary : Bool
deriving DecidableEq

/-- Observable effects the session handlers perform on the two legs:
`upstreamWs.send`, `clientWs.send`, `clientWs.close(code, reason)`,
`upstreamWs.close(code, reason)`. -/
inductive Action
  | sendUpstream (f : Frame)
  | sendClient (f : Frame)
  | closeClient (code : Nat) (reason : String)
  | closeUpstream (code : Nat) (reason : String)
deriving DecidableEq

/-- Events delivered to the per-session handlers registered in
src/proxy.js lines 141-245.  Close codes and reasons are optional to
model JavaScript falsiness of an absent argument. -/
inductive Event
  | upstreamOpen
  | upstreamMessage (f : Frame)
  | clientMessage (f : Frame)
  | upstreamError
  | upstreamClose (code : Option Nat) (reason : Option String)
  | clientError
  | clientClose (code : Option Nat) (reason : Option String)
deriving DecidableEq

/-- Per-session mutable state captured by the connection handler's
closure: the `upstreamWs` variable (whether it is non-null and its
readyState), the client leg's readyState, the `isClosing` latch and
the `messageBuffer` array (src/proxy.js lines 112-113, 138). -/
structure Session where
  upstreamExists : Bool
  upstreamState : ReadyState
  clientState : ReadyState
  isClosing : Bool
  messageBuffer : List Frame
deriving DecidableEq

/-- Session state right after `upstreamWs = new WebSocket(...)` succeeds
and the handlers are registered: the client leg is open (the upgrade
completed), the upstream leg exists but is still connecting, the latch
is down and the buffer empty. -/
def initSession : Session :=
  { upstreamExists := true
    upstreamState := ReadyState.CONNECTING
    clientState := ReadyState.OPEN
    isClosing := false
    messageBuffer := [] }

/-- `code || 1000` on an optional close code: a missing code, or the
falsy code 0, is replaced by 1000 (src/proxy.js lines 209 and 228). -/
def jsOrCode : Option Nat → Nat
  | none => 1000
  | some c => if c = 0 then 1000 else c

/-- `reason || ''` on an optional close reason: a missing reason is
replaced by the empty string (src/proxy.js lines 209 and 228). -/
def jsOrReason : Option String → String
  | none => ""
  | some r => r

/-- Effect of calling `.close(...)` on a leg: a socket that is not yet
closed moves to the CLOSING state. -/
def closeCall : ReadyState → ReadyState
  | ReadyState.CLOSED => ReadyState.CLOSED
  | _ => ReadyState.CLOSING

/-- One event-handler activation, translated handler by handler from
src/proxy.js lines 141-245.  Returns the updated session state and the
list of actions the handler performs, in order. -/
def step (s : Session) : Event → Session × List Action
  | Event.upstreamOpen =>
      -- lines 141-152: upstream readyState becomes OPEN; every buffered
      -- frame is sent to upstream in order; the buffer is cleared.
      ({ s with upstreamState := ReadyState.OPEN, messageBuffer := [] },
       s.messageBuffer.map Action.sendUpstream)
  | Event.upstreamMessage f =>
      -- lines 155-164: forwarded to the client only when the client leg
      -- is OPEN; otherwise nothing happens (the frame is dropped).
      if s.clientState = ReadyState.OPEN then (s, [Action.sendClient f])
      else (s, [])
  | Event.clientMessage f =>
      -- lines 167-183: sent straight to upstream when `upstreamWs` is
      -- non-null and OPEN; otherwise pushed onto `messageBuffer`.
      if s.upstreamExists = true ∧ s.upstreamState = ReadyState.OPEN then
        (s, [Action.sendUpstream f])
      else
        ({ s with messageBuffer := s.messageBuffer ++ [f] }, [])
  | Event.upstreamError =>
      -- lines 186-195
      if s.isClosing = false then
        ({ s with isClosing := true, clientState := closeCall s.clientState },
         [Action.closeClient 1011 "Upstream connection error"])
      else (s, [])
  | Event.upstreamClose code reason =>
      -- lines 198-214: the upstream socket is now closed; on the first
      -- close-trigger the client leg is closed with `code || 1000`,
      -- `reason || ''`.
      if s.isClosing = false then
        ({ s with upstreamState := ReadyState.CLOSED, isClosing := true,
                  clientState := closeCall s.clientState },
         [Action.closeClient (jsOrCode code) (jsOrReason reason)])
      else ({ s with upstreamState := ReadyState.CLOSED }, [])
  | Event.clientError =>
      -- lines 236-245
      if s.isClosing = false ∧ s.upstreamExists = true then
        ({ s with isClosing := true, upstreamState := closeCall s.upstreamState },
         [Action.closeUpstream 1011 "Client connection error"])
      else (s, [])
  | Event.clientClose code reason =>
      -- lines 217-233
      if s.isClosing = false ∧ s.upstreamExists = true then
        ({ s with clientState := ReadyState.CLOSED, isClosing := true,
                  upstreamState := closeCall s.upstreamState },
         [Action.closeUpstream (jsOrCode code) (jsOrReason reason)])
      else ({ s with clientState := ReadyState.CLOSED }, [])

/-- Run a session through a list of events, accumulating the emitted
actions in order. -/
def run (s : Session) : List Event → Session × List Action
  | [] => (s, [])
  | e :: es =>
      let p := step s e
      let q := run p.1 es
      (q.1, p.2 ++ q.2)

/-- The close-trigger events of the spec: upstream error, upstream
close, client error, client close. -/
def Event.isCloseTrigger : Event → Bool
  | Event.upstreamError => true
  | Event.upstreamClose _ _ => true
  | Event.clientError => true
  | Event.clientClose _ _ => true
  | _ => false

/-- Whether an action is a close call on either leg. -/
def Action.isClose : Action → Bool
  | Action.closeClient _ _ => true
  | Action.closeUpstream _ _ => true
  | _ => false

/-- The close call the coordinator performs on the opposite leg for each
close-trigger: explicit codes and reasons are propagated (absent code
becomes 1000, absent reason the empty string), errors map to 1011 with
a descriptive reason.  The value for non-trigger events is irrelevant
and never used. -/
def mappedClose : Event → Action
  | Event.upstreamError => Action.closeClient 1011 "Upstream connection error"
  | Event.upstreamClose c r => Action.closeClient (jsOrCode c) (jsOrReason r)
  | Event.clientError => Action.closeUpstream 1011 "Client connection error"
  | Event.clientClose c r => Action.closeUpstream (jsOrCode c) (jsOrReason r)
  | _ => Action.closeClient 0 ""

/-- Frames carried by the upstream-directed send actions of a list, in
order. -/
def sentUpstream (as : List Action) : List Frame :=
  as.filterMap fun a =>
    match a with
    | Action.sendUpstream f => some f
    | _ => none

/-- The parts of an upgrade request the validator inspects: the `token`
and `server` query parameters, the `Origin` header and the
`Sec-WebSocket-Protocol` header.  `none` models an absent parameter or
header; `some ""` a present but empty one (both are falsy in the
JavaScript source). -/
structure UpgradeRequest where
  token : Option String
  server : Option String
  origin : Option String
  subprotocol : Option String
deriving DecidableEq

/-- JavaScript truthiness of an optional string: present and non-empty. -/
def truthy : Option String → Bool
  | none => false
  | some v => !(v == "")

/-- Outcome of the upgrade handler: a raw HTTP rejection (status and
body) written to the socket, or acceptance carrying the extracted
token and upstream server address into the connection handler. -/
inductive UpgradeResult
  | rejected (status : Nat) (body : String)
  | accepted (token : String) (upstreamServer : String)
deriving DecidableEq

/-- The upgrade handler's validation chain, translated from
src/proxy.js lines 49-98.  `allowedOrigins` is the `ALLOWED_ORIGINS`
configuration: `none` when the environment variable is unset (no
allow-list), `some l` for the parsed comma-separated list. -/
def handleUpgrade (allowedOrigins : Option (List String))
    (req : UpgradeRequest) : UpgradeResult :=
  if truthy req.token = false then
    UpgradeResult.rejected 400 "Missing token parameter"
  else if truthy req.server = false then
    UpgradeResult.rejected 400 "Missing server parameter"
  else if ("ws://".toList).isPrefixOf ((req.server.getD "").toList) = false ∧
          ("wss://".toList).isPrefixOf ((req.server.getD "").toList) = false then
    UpgradeResult.rejected 400
      "Invalid server parameter (must start with ws:// or wss://)"
  else if allowedOrigins.isSome = true ∧ truthy req.origin = true ∧
          (allowedOrigins.getD []).contains (req.origin.getD "") = false ∧
          (allowedOrigins.getD []).contains "*" = false then
    UpgradeResult.rejected 403 "Origin not allowed"
  else
    UpgradeResult.accepted (req.token.getD "") (req.server.getD "")

/-- Whether a request passes the first three (parameter) validation
rules, before the origin check. -/
def passesParams (req : UpgradeRequest) : Bool :=
  truthy req.token && truthy req.server &&
    (("ws://".toList).isPrefixOf ((req.server.getD "").toList) ||
     ("wss://".toList).isPrefixOf ((req.server.getD "").toList))

/-- Headers of the outbound upstream handshake, translated from
src/proxy.js lines 117-124: `X-Auth-Token` always; the client's
`Sec-WebSocket-Protocol` value mirrored when that header is truthy. -/
def buildUpstreamHeaders (token : String) (subprotocol : Option String) :
    List (String × String) :=
  [("X-Auth-Token", token)] ++
    (if truthy subprotocol = true then
      [("Sec-WebSocket-Protocol", subprotocol.getD "")]
    else [])

/-- The upstream handshake headers produced for an upgrade request, or
`none` when the request is rejected (no upstream connection attempt is
made: the connection handler only runs for accepted requests). -/
def upgradeToHeaders (allowedOrigins : Option (List String))
    (req : UpgradeRequest) : Option (List (String × String)) :=
  match handleUpgrade allowedOrigins req with
  | UpgradeResult.accepted token _ =>
      some (buildUpstreamHeaders token req.subprotocol)
  | UpgradeResult.rejected _ _ => none

/-- Whether `new WebSocket(upstreamServer, ...)` returns normally or
throws synchronously. -/
inductive CtorResult
  | ok
  | throws
deriving DecidableEq

/-- The connection handler's try/catch around upstream construction
(src/proxy.js lines 116 and 247-253): on success the session state
machine starts; on a synchronous construction error the client leg is
closed with 1011 and no session state is created. -/
def handleConnection : CtorResult → Option Session × List Action
  | CtorResult.ok => (some initSession, [])
  | CtorResult.throws =>
      (none, [Action.closeClient 1011 "Failed to connect to upstream server"])

/-- Token masking for log output, translated from src/proxy.js lines
29-32; the token string is modelled as its list of characters. -/
def maskToken (token : List Char) : List Char :=
  if token.length ≤ 8 then "****".toList
  else token.take 4 ++ "...".toList ++ token.drop (token.length - 4)

/-! ### Step and run lemmas -/

theorem filter_isClose_map_sendUpstream (l : List Frame) :
    (l.map Action.sendUpstream).filter Action.isClose = [] := by
  induction l with
  | nil => rfl
  | cons f fs ih => simp [Action.isClose, ih]

theorem step_upstreamExists (s : Session) (e : Event) :
    (step s e).1.upstreamExists = s.upstreamExists := by
  cases e <;> simp only [step] <;> (try split) <;> rfl

theorem step_isClosing (s : Session) (e : Event) (hs : s.upstreamExists = true) :
    (step s e).1.isClosing = (s.isClosing || e.isCloseTrigger) := by
  cases e <;> simp only [step, Event.isCloseTrigger] <;> (try split) <;>
    simp_all

theorem step_filter_closes (s : Session) (e : Event) (hs : s.upstreamExists = true) :
    (step s e).2.filter Action.isClose =
      (if s.isClosing = false ∧ e.isCloseTrigger = true then [mappedClose e]
       else []) := by
  cases e <;>
    simp only [step, Event.isCloseTrigger, mappedClose] <;> (try split) <;>
    simp_all [Action.isClose, filter_isClose_map_sendUpstream]

theorem run_upstreamExists (tr : List Event) :
    ∀ s, (run s tr).1.upstreamExists = s.upstreamExists := by
  induction tr with
  | nil => intro s; rfl
  | cons e es ih => intro s; simp only [run]; rw [ih, step_upstreamExists]

theorem run_isClosing (tr : List Event) :
    ∀ s, s.upstreamExists = true →
      (run s tr).1.isClosing = (s.isClosing || tr.any Event.isCloseTrigger) := by
  induction tr with
  | nil => intro s hs; simp [run]
  | cons e es ih =>
      intro s hs
      simp only [run, List.any_cons]
      rw [ih _ (by rw [step_upstreamExists]; exact hs), step_isClosing s e hs,
        Bool.or_assoc]

theorem run_filter_closes (tr : List Event) :
    ∀ s, s.upstreamExists = true →
      (run s tr).2.filter Action.isClose =
        (if s.isClosing = true then []
         else
           match tr.find? Event.isCloseTrigger with
           | some e => [mappedClose e]
           | none => []) := by
  induction tr with
  | nil => intro s hs; cases h : s.isClosing <;> simp [run, h]
  | cons e es ih =>
      intro s hs
      simp only [run, List.filter_append]
      rw [step_filter_closes s e hs, ih _ (by rw [step_upstreamExists]; exact hs),
        step_isClosing s e hs]
      cases hc : s.isClosing <;> cases ht : e.isCloseTrigger <;>
        simp [List.find?_cons, ht]

/-! ### C1 -/

/-- C1. One-shot close propagation: over any event trace of a session,
the close calls performed are exactly one, at the first close-trigger
(upstream error/close, client error/close), mapped to the opposite leg:
an explicit close code and reason are propagated verbatim (for any
nonzero code, the only close codes that exist on a WebSocket), an
absent code becomes 1000 and an absent reason the empty string, and
errors map to code 1011 with a descriptive reason; the `isClosing`
latch is true exactly when a close-trigger has occurred, and no close
call at all is performed after it is set. -/
theorem close_propagation_one_shot (tr : List Event) :
    ((run initSession tr).2.filter Action.isClose =
      (match tr.find? Event.isCloseTrigger with
       | some e => [mappedClose e]
       | none => [])) ∧
    ((run initSession tr).1.isClosing = tr.any Event.isCloseTrigger) ∧
    (∀ c r, c ≠ 0 →
      mappedClose (Event.upstreamClose (some c) (some r)) = Action.closeClient c r ∧
      mappedClose (Event.clientClose (some c) (some r)) = Action.closeUpstream c r) ∧
    mappedClose (Event.upstreamClose none none) = Action.closeClient 1000 "" ∧
    mappedClose (Event.clientClose none none) = Action.closeUpstream 1000 "" ∧
    mappedClose Event.upstreamError = Action.closeClient 1011 "Upstream connection error" ∧
    mappedClose Event.clientError = Action.closeUpstream 1011 "Client connection error" := by
  refine ⟨?_, ?_, ?_, rfl, rfl, rfl, rfl⟩
  · have h := run_filter_closes tr initSession rfl
    simpa [initSession] using h
  · have h := run_isClosing tr initSession rfl
    simpa [initSession] using h
  · intro c r hc
    constructor <;> simp [mappedClose, jsOrCode, jsOrReason, hc]

theorem run_append (t1 t2 : List Event) :
    ∀ s, run s (t1 ++ t2) =
      ((run (run s t1).1 t2).1, (run s t1).2 ++ (run (run s t1).1 t2).2) := by
  induction t1 with
  | nil => intro s; simp [run]
  | cons e es ih => intro s; simp [run, ih, List.append_assoc]

theorem run_buffer_phase (l : List Frame) :
    ∀ s, s.upstreamState ≠ ReadyState.OPEN →
      run s (l.map Event.clientMessage) =
        ({ s with messageBuffer := s.messageBuffer ++ l }, []) := by
  induction l with
  | nil => intro s hs; cases s; simp [run]
  | cons f fs ih =>
      intro s hs
      simp only [List.map_cons, run, step]
      rw [if_neg (fun h => hs h.2)]
      rw [ih { s with messageBuffer := s.messageBuffer ++ [f] } hs]
      simp

theorem run_relay_phase (l : List Frame) :
    ∀ s, s.upstreamExists = true → s.upstreamState = ReadyState.OPEN →
      run s (l.map Event.clientMessage) = (s, l.map Action.sendUpstream) := by
  induction l with
  | nil => intro s hs ho; simp [run]
  | cons f fs ih =>
      intro s hs ho
      simp only [List.map_cons, run, step]
      rw [if_pos ⟨hs, ho⟩, ih s hs ho]
      simp

theorem sentUpstream_append (a b : List Action) :
    sentUpstream (a ++ b) = sentUpstream a ++ sentUpstream b := by
  simp [sentUpstream, List.filterMap_append]

theorem sentUpstream_map_send (l : List Frame) :
    sentUpstream (l.map Action.sendUpstream) = l := by
  induction l with
  | nil => rfl
  | cons f fs ih => simp only [List.map_cons, sentUpstream, List.filterMap_cons] at ih ⊢; simp [ih]

/-! ### C2 -/

/-- C2. Ordering guarantee: for every session and every sequence of
client frames, the frames that arrive before the upstream leg opens are
delivered to upstream in their exact arrival order — each frame,
including its binary/text marking, preserved — and all of them are
delivered before any frame the client sends after the upstream leg
opens, which follow in their own order. -/
theorem client_frame_ordering (pre post : List Frame) :
    sentUpstream (run initSession
      (pre.map Event.clientMessage ++
        Event.upstreamOpen :: post.map Event.clientMessage)).2 = pre ++ post := by
  have h1 : run initSession (pre.map Event.clientMessage) =
      ({ initSession with messageBuffer := pre }, []) := by
    have h := run_buffer_phase pre initSession (by simp [initSession])
    simpa [initSession] using h
  have h2 : step { initSession with messageBuffer := pre } Event.upstreamOpen =
      ({ initSession with upstreamState := ReadyState.OPEN },
       pre.map Action.sendUpstream) := rfl
  have h3 : run { initSession with upstreamState := ReadyState.OPEN }
        (post.map Event.clientMessage) =
      ({ initSession with upstreamState := ReadyState.OPEN },
       post.map Action.sendUpstream) :=
    run_relay_phase post _ rfl rfl
  rw [run_append, h1]
  simp only [run]
  rw [h2]
  simp [h3, sentUpstream_append, sentUpstream_map_send]

theorem closeCall_ne_OPEN (st : ReadyState) : closeCall st ≠ ReadyState.OPEN := by
  cases st <;> simp [closeCall]

theorem step_buffer_inv (s : Session) (e : Event) (hs : s.upstreamExists = true)
    (h : s.messageBuffer ≠ [] → s.upstreamState ≠ ReadyState.OPEN) :
    (step s e).1.messageBuffer ≠ [] →
      (step s e).1.upstreamState ≠ ReadyState.OPEN := by
  cases e <;> simp only [step] <;> (try split) <;>
    simp_all [closeCall_ne_OPEN]

theorem run_buffer_inv (tr : List Event) :
    ∀ s, s.upstreamExists = true →
      (s.messageBuffer ≠ [] → s.upstreamState ≠ ReadyState.OPEN) →
      ((run s tr).1.messageBuffer ≠ [] →
        (run s tr).1.upstreamState ≠ ReadyState.OPEN) := by
  induction tr with
  | nil => intro s _ h; exact h
  | cons e es ih =>
      intro s hs h
      simp only [run]
      exact ih _ (by rw [step_upstreamExists]; exact hs) (step_buffer_inv s e hs h)

theorem step_no_send_upstream (s : Session) (e : Event)
    (h : s.upstreamState ≠ ReadyState.OPEN) (he : e ≠ Event.upstreamOpen) :
    sentUpstream (step s e).2 = [] ∧
      (step s e).1.upstreamState ≠ ReadyState.OPEN := by
  cases e <;> simp only [step] <;> (try split) <;>
    simp_all [sentUpstream, closeCall_ne_OPEN]

theorem run_no_send_upstream (tr : List Event) :
    ∀ s, s.upstreamState ≠ ReadyState.OPEN → Event.upstreamOpen ∉ tr →
      sentUpstream (run s tr).2 = [] := by
  induction tr with
  | nil => intro s _ _; rfl
  | cons e es ih =>
      intro s h hm
      have hm1 : e ≠ Event.upstreamOpen := by
        intro heq; exact hm (heq ▸ List.mem_cons_self e es)
      have hm2 : Event.upstreamOpen ∉ es := fun hmem => hm (List.mem_cons_of_mem _ hmem)
      have hstep := step_no_send_upstream s e h hm1
      simp only [run, sentUpstream_append]
      rw [hstep.1, ih _ hstep.2 hm2]
      rfl

/-! ### C4 -/

/-- C4 (amended). Buffer invariant: for every session, `messageBuffer`
is non-empty only while the upstream leg is not currently open; on each
upstream open event the buffer is drained — every buffered frame is
sent to upstream in order and the buffer is emptied; and while the
upstream leg is open no client frame is appended: it goes straight to
the relay.  (As originally stated the claim is false: after the
upstream leg has opened and later closed, arriving client frames are
appended to the buffer again — see the counterexample and C10.) -/
theorem buffer_invariant_amended (tr : List Event) :
    ((run initSession tr).1.messageBuffer ≠ [] →
      (run initSession tr).1.upstreamState ≠ ReadyState.OPEN) ∧
    ((step (run initSession tr).1 Event.upstreamOpen).1.messageBuffer = [] ∧
     (step (run initSession tr).1 Event.upstreamOpen).2 =
       (run initSession tr).1.messageBuffer.map Action.sendUpstream) ∧
    (∀ f, (run initSession tr).1.upstreamState = ReadyState.OPEN →
      step (run initSession tr).1 (Event.clientMessage f) =
        ((run initSession tr).1, [Action.sendUpstream f])) := by
  refine ⟨run_buffer_inv tr initSession rfl (by simp [initSession]),
    ⟨rfl, rfl⟩, ?_⟩
  intro f ho
  have hex : (run initSession tr).1.upstreamExists = true := by
    rw [run_upstreamExists]; rfl
  simp only [step]
  rw [if_pos ⟨hex, ho⟩]

/-- Counterexample to C4 as stated: after the upstream leg opens (the
buffer having been drained) and then closes, a further client frame is
appended to the buffer again, so the buffer is non-empty at a moment
when the upstream leg is not "absent or not yet open" but closed, and
a frame was appended after the drain. -/
theorem buffer_invariant_cex :
    (run initSession [Event.upstreamOpen,
        Event.upstreamClose (some 1000) (some "done")]).1.messageBuffer = [] ∧
    (run initSession [Event.upstreamOpen, Event.upstreamClose (some 1000) (some "done"),
        Event.clientMessage ⟨"x", false⟩]).1.messageBuffer = [⟨"x", false⟩] ∧
    (run initSession [Event.upstreamOpen, Event.upstreamClose (some 1000) (some "done"),
        Event.clientMessage ⟨"x", false⟩]).1.upstreamState = ReadyState.CLOSED := by
  exact ⟨by decide, by decide, by decide⟩

/-- Witness for C4 (amended): a frame buffered while the upstream leg
is still connecting witnesses the invariant, and a frame arriving once
the upstream leg is open is relayed immediately. -/
theorem buffer_invariant_amended_witness :
    (run initSession [Event.clientMessage ⟨"a", true⟩]).1.upstreamState ≠
      ReadyState.OPEN ∧
    step (run initSession [Event.upstreamOpen]).1 (Event.clientMessage ⟨"b", false⟩) =
      ((run initSession [Event.upstreamOpen]).1, [Action.sendUpstream ⟨"b", false⟩]) := by
  constructor
  · exact (buffer_invariant_amended [Event.clientMessage ⟨"a", true⟩]).1 (by decide)
  · exact (buffer_invariant_amended [Event.upstreamOpen]).2.2 ⟨"b", false⟩ (by decide)

/-! ### C7 -/

/-- C7. Error mapping: when the closing latch is false, an upstream
runtime error closes the client leg with code 1011 and a descriptive
reason; a client runtime error symmetrically closes the upstream leg
with code 1011; a synchronous failure to construct the upstream
connection closes the client leg with code 1011.  The handlers are
total functions of the session state — no retry action exists in the
model (the action type has no connect/retry constructor). -/
theorem error_mapping (tr : List Event) :
    ((run initSession tr).1.isClosing = false →
      (step (run initSession tr).1 Event.upstreamError).2 =
        [Action.closeClient 1011 "Upstream connection error"]) ∧
    ((run initSession tr).1.isClosing = false →
      (step (run initSession tr).1 Event.clientError).2 =
        [Action.closeUpstream 1011 "Client connection error"]) ∧
    handleConnection CtorResult.throws =
      (none, [Action.closeClient 1011 "Failed to connect to upstream server"]) := by
  have hex : (run initSession tr).1.upstreamExists = true := by
    rw [run_upstreamExists]; rfl
  refine ⟨?_, ?_, rfl⟩
  · intro h; simp only [step]; rw [if_pos h]
  · intro h; simp only [step]; rw [if_pos ⟨h, hex⟩]

/-- Witness for C7: the error mappings on a fresh session. -/
theorem error_mapping_witness :
    (step (run initSession []).1 Event.upstreamError).2 =
      [Action.closeClient 1011 "Upstream connection error"] ∧
    (step (run initSession []).1 Event.clientError).2 =
      [Action.closeUpstream 1011 "Client connection error"] :=
  ⟨(error_mapping []).1 (by decide), (error_mapping []).2.1 (by decide)⟩

/-! ### C8 -/

/-- C8. Lossy upstream-to-client forwarding: a frame arriving on the
upstream leg while the client leg is not open is silently dropped — the
session state (including the buffer) is unchanged and no action is
performed — while a frame arriving while the client leg is open is
forwarded verbatim, binary/text flag included. -/
theorem upstream_to_client_forwarding (tr : List Event) (f : Frame) :
    ((run initSession tr).1.clientState ≠ ReadyState.OPEN →
      step (run initSession tr).1 (Event.upstreamMessage f) =
        ((run initSession tr).1, [])) ∧
    ((run initSession tr).1.clientState = ReadyState.OPEN →
      step (run initSession tr).1 (Event.upstreamMessage f) =
        ((run initSession tr).1, [Action.sendClient f])) := by
  constructor
  · intro h; simp only [step]; rw [if_neg h]
  · intro h; simp only [step]; rw [if_pos h]

/-- Witness for C8: after an upstream close has moved the client leg
out of the open state, an upstream frame is dropped; on a fresh session
(client leg open) it is forwarded. -/
theorem upstream_to_client_forwarding_witness :
    step (run initSession [Event.upstreamClose none none]).1
        (Event.upstreamMessage ⟨"m", true⟩) =
      ((run initSession [Event.upstreamClose none none]).1, []) ∧
    step (run initSession []).1 (Event.upstreamMessage ⟨"m", true⟩) =
      ((run initSession []).1, [Action.sendClient ⟨"m", true⟩]) :=
  ⟨(upstream_to_client_forwarding [Event.upstreamClose none none] ⟨"m", true⟩).1
      (by decide),
   (upstream_to_client_forwarding [] ⟨"m", true⟩).2 (by decide)⟩

/-! ### C10 -/

/-- C10. Post-close re-buffering: if the upstream leg has closed
(after having been created) while the client leg is still open, a
client frame arriving then is appended to the pending-message buffer —
the forwarding guard tests whether upstream is currently open, not
whether it ever opened — no action and no error is raised for it, and
since the drain runs only on an upstream open event, no frame is ever
delivered to upstream during any continuation that contains no
upstream open event. -/
theorem post_close_rebuffering (tr tr2 : List Event) (f : Frame)
    (h1 : (run initSession tr).1.upstreamState = ReadyState.CLOSED)
    (_h2 : (run initSession tr).1.clientState = ReadyState.OPEN)
    (h3 : Event.upstreamOpen ∉ tr2) :
    (step (run initSession tr).1 (Event.clientMessage f)).2 = [] ∧
    (step (run initSession tr).1 (Event.clientMessage f)).1.messageBuffer =
      (run initSession tr).1.messageBuffer ++ [f] ∧
    sentUpstream
      (run (step (run initSession tr).1 (Event.clientMessage f)).1 tr2).2 = [] := by
  have hno : (run initSession tr).1.upstreamState ≠ ReadyState.OPEN := by
    rw [h1]; simp
  have hstep : step (run initSession tr).1 (Event.clientMessage f) =
      ({ (run initSession tr).1 with
          messageBuffer := (run initSession tr).1.messageBuffer ++ [f] }, []) := by
    simp only [step]
    rw [if_neg (fun hh => hno hh.2)]
  refine ⟨by rw [hstep], by rw [hstep], ?_⟩
  rw [hstep]
  exact run_no_send_upstream tr2 _ hno h3

/-- Witness for C10: a client error closes the upstream leg, upstream's
close event then arrives (latch already set, client leg still open); a
subsequent client frame is buffered and never delivered. -/
theorem post_close_rebuffering_witness :
    (step (run initSession [Event.clientError, Event.upstreamClose none none]).1
        (Event.clientMessage ⟨"y", false⟩)).2 = [] ∧
    (step (run initSession [Event.clientError, Event.upstreamClose none none]).1
        (Event.clientMessage ⟨"y", false⟩)).1.messageBuffer =
      (run initSession [Event.clientError, Event.upstreamClose none none]).1.messageBuffer
        ++ [⟨"y", false⟩] ∧
    sentUpstream
      (run (step (run initSession [Event.clientError, Event.upstreamClose none none]).1
          (Event.clientMessage ⟨"y", false⟩)).1
        [Event.clientMessage ⟨"z", true⟩, Event.clientClose none none]).2 = [] :=
  post_close_rebuffering [Event.clientError, Event.upstreamClose none none]
    [Event.clientMessage ⟨"z", true⟩, Event.clientClose none none] ⟨"y", false⟩
    (by decide) (by decide) (by decide)

theorem handleUpgrade_token_reject (ao : Option (List String)) (req : UpgradeRequest)
    (h : truthy req.token = false) :
    handleUpgrade ao req = UpgradeResult.rejected 400 "Missing token parameter" := by
  simp only [handleUpgrade]
  rw [if_pos h]

theorem handleUpgrade_server_reject (ao : Option (List String)) (req : UpgradeRequest)
    (ht : truthy req.token = true) (h : truthy req.server = false) :
    handleUpgrade ao req = UpgradeResult.rejected 400 "Missing server parameter" := by
  simp only [handleUpgrade]
  rw [if_neg (by simp [ht]), if_pos h]

theorem handleUpgrade_scheme_reject (ao : Option (List String)) (req : UpgradeRequest)
    (ht : truthy req.token = true) (hs : truthy req.server = true)
    (hp1 : ("ws://".toList).isPrefixOf ((req.server.getD "").toList) = false)
    (hp2 : ("wss://".toList).isPrefixOf ((req.server.getD "").toList) = false) :
    handleUpgrade ao req =
      UpgradeResult.rejected 400
        "Invalid server parameter (must start with ws:// or wss://)" := by
  simp only [handleUpgrade]
  rw [if_neg (by simp [ht]), if_neg (by simp [hs]), if_pos ⟨hp1, hp2⟩]

theorem handleUpgrade_origin_reject (ao : Option (List String)) (req : UpgradeRequest)
    (ht : truthy req.token = true) (hs : truthy req.server = true)
    (hpre : ¬(("ws://".toList).isPrefixOf ((req.server.getD "").toList) = false ∧
        ("wss://".toList).isPrefixOf ((req.server.getD "").toList) = false))
    (hcond : ao.isSome = true ∧ truthy req.origin = true ∧
      (ao.getD []).contains (req.origin.getD "") = false ∧
      (ao.getD []).contains "*" = false) :
    handleUpgrade ao req = UpgradeResult.rejected 403 "Origin not allowed" := by
  simp only [handleUpgrade]
  rw [if_neg (by simp [ht]), if_neg (by simp [hs]), if_neg hpre, if_pos hcond]

theorem handleUpgrade_accept (ao : Option (List String)) (req : UpgradeRequest)
    (ht : truthy req.token = true) (hs : truthy req.server = true)
    (hpre : ¬(("ws://".toList).isPrefixOf ((req.server.getD "").toList) = false ∧
        ("wss://".toList).isPrefixOf ((req.server.getD "").toList) = false))
    (hcond : ¬(ao.isSome = true ∧ truthy req.origin = true ∧
      (ao.getD []).contains (req.origin.getD "") = false ∧
      (ao.getD []).contains "*" = false)) :
    handleUpgrade ao req =
      UpgradeResult.accepted (req.token.getD "") (req.server.getD "") := by
  simp only [handleUpgrade]
  rw [if_neg (by simp [ht]), if_neg (by simp [hs]), if_neg hpre, if_neg hcond]

theorem handleUpgrade_accepted (cfg : Option (List String)) (req : UpgradeRequest)
    (t sv : String) (h : handleUpgrade cfg req = UpgradeResult.accepted t sv) :
    truthy req.token = true ∧ t = req.token.getD "" ∧ sv = req.server.getD "" := by
  simp only [handleUpgrade] at h
  split at h
  · exact absurd h (by simp)
  split at h
  · exact absurd h (by simp)
  split at h
  · exact absurd h (by simp)
  split at h
  · exact absurd h (by simp)
  rename_i hc1 hc2 hc3 hc4
  simp only [UpgradeResult.accepted.injEq] at h
  refine ⟨?_, h.1.symm, h.2.symm⟩
  cases hb : truthy req.token
  · exact absurd hb hc1
  · rfl

/-! ### C5 -/

/-- C5. Parameter validation, in order, first failure wins: a missing
or empty `token` query parameter yields 400 "Missing token parameter";
otherwise a missing or empty `server` parameter yields 400 "Missing
server parameter"; otherwise a `server` value starting with neither
`ws://` nor `wss://` yields 400 "Invalid server parameter (…)"; and on
any rejection no upstream handshake headers are built (no connection
attempt) and no accepted session exists. -/
theorem parameter_validation (ao : Option (List String)) (req : UpgradeRequest) :
    ((req.token = none ∨ req.token = some "") →
      handleUpgrade ao req = UpgradeResult.rejected 400 "Missing token parameter") ∧
    (truthy req.token = true → (req.server = none ∨ req.server = some "") →
      handleUpgrade ao req = UpgradeResult.rejected 400 "Missing server parameter") ∧
    (∀ sv, truthy req.token = true → req.server = some sv → sv ≠ "" →
      ("ws://".toList).isPrefixOf sv.toList = false →
      ("wss://".toList).isPrefixOf sv.toList = false →
      handleUpgrade ao req =
        UpgradeResult.rejected 400
          "Invalid server parameter (must start with ws:// or wss://)") ∧
    (∀ st b, handleUpgrade ao req = UpgradeResult.rejected st b →
      upgradeToHeaders ao req = none ∧
      ∀ t sv, handleUpgrade ao req ≠ UpgradeResult.accepted t sv) := by
  refine ⟨?_, ?_, ?_, ?_⟩
  · intro h
    refine handleUpgrade_token_reject ao req ?_
    rcases h with h | h <;> rw [h] <;> rfl
  · intro ht h
    refine handleUpgrade_server_reject ao req ht ?_
    rcases h with h | h <;> rw [h] <;> rfl
  · intro sv ht hs hne hp1 hp2
    have hgd : req.server.getD "" = sv := by rw [hs]; rfl
    refine handleUpgrade_scheme_reject ao req ht ?_ ?_ ?_
    · rw [hs]
      simp [truthy, hne]
    · rw [hgd]; exact hp1
    · rw [hgd]; exact hp2
  · intro st b h
    constructor
    · simp [upgradeToHeaders, h]
    · intro t sv heq
      rw [h] at heq
      exact UpgradeResult.noConfusion heq

/-- Witness for C5: the three rejection rules and the absence of an
upstream attempt, at concrete requests. -/
theorem parameter_validation_witness :
    handleUpgrade none ⟨none, some "ws://x", none, none⟩ =
      UpgradeResult.rejected 400 "Missing token parameter" ∧
    handleUpgrade none ⟨some "t", some "", none, none⟩ =
      UpgradeResult.rejected 400 "Missing server parameter" ∧
    handleUpgrade none ⟨some "t", some "http://x", none, none⟩ =
      UpgradeResult.rejected 400
        "Invalid server parameter (must start with ws:// or wss://)" ∧
    upgradeToHeaders none ⟨some "t", some "http://x", none, none⟩ = none := by
  have P := parameter_validation none ⟨some "t", some "http://x", none, none⟩
  have h3 := P.2.2.1 "http://x" (by decide) rfl (by decide) (by decide) (by decide)
  exact ⟨(parameter_validation none ⟨none, some "ws://x", none, none⟩).1 (Or.inl rfl),
    (parameter_validation none ⟨some "t", some "", none, none⟩).2.1 (by decide)
      (Or.inr rfl),
    h3, (P.2.2.2 400 _ h3).1⟩

/-! ### C6 -/

/-- C6 (amended). Origin allow-list for requests passing parameter
validation: when an allow-list is configured and the request carries a
*non-empty* `Origin` header whose value is not in the list, and the
list does not contain `*`, the request is rejected 403 "Origin not
allowed"; with no `Origin` header the check is skipped regardless of
the configured list; with no allow-list configured every request
proceeds.  (As originally stated the claim is false: an `Origin`
header that is present but empty is falsy in the source's
`ALLOWED_ORIGINS && origin` guard, so the check is skipped — see the
counterexample.) -/
theorem origin_allowlist_amended (cfg : Option (List String)) (req : UpgradeRequest)
    (hp : passesParams req = true) :
    (∀ ao ov, cfg = some ao → req.origin = some ov → ov ≠ "" →
      ao.contains ov = false → ao.contains "*" = false →
      handleUpgrade cfg req = UpgradeResult.rejected 403 "Origin not allowed") ∧
    (req.origin = none →
      handleUpgrade cfg req =
        UpgradeResult.accepted (req.token.getD "") (req.server.getD "")) ∧
    (cfg = none →
      handleUpgrade cfg req =
        UpgradeResult.accepted (req.token.getD "") (req.server.getD "")) := by
  simp only [passesParams, Bool.and_eq_true, Bool.or_eq_true] at hp
  obtain ⟨⟨ht, hs⟩, hpre⟩ := hp
  have hpre' : ¬(("ws://".toList).isPrefixOf ((req.server.getD "").toList) = false ∧
      ("wss://".toList).isPrefixOf ((req.server.getD "").toList) = false) := by
    rintro ⟨h1, h2⟩
    rcases hpre with h | h
    · rw [h] at h1; exact Bool.noConfusion h1
    · rw [h] at h2; exact Bool.noConfusion h2
  refine ⟨?_, ?_, ?_⟩
  · intro ao ov hc horig hov hco hcw
    subst hc
    refine handleUpgrade_origin_reject (some ao) req ht hs hpre' ⟨rfl, ?_, ?_, ?_⟩
    · rw [horig]
      simp [truthy, hov]
    · rw [horig]
      exact hco
    · exact hcw
  · intro horig
    refine handleUpgrade_accept cfg req ht hs hpre' ?_
    rintro ⟨_, h2, _⟩
    rw [horig] at h2
    exact Bool.noConfusion h2
  · intro hc
    subst hc
    refine handleUpgrade_accept none req ht hs hpre' ?_
    rintro ⟨h1, _⟩
    exact Bool.noConfusion h1

/-- Counterexample to C6 as stated: with allow-list `["https://a.com"]`
and a present-but-empty `Origin` header (value not in the list, no `*`
in the list), the source skips the origin check — the request is
accepted, not rejected with 403. -/
theorem origin_allowlist_cex :
    handleUpgrade (some ["https://a.com"]) ⟨some "t", some "ws://x", some "", none⟩ =
      UpgradeResult.accepted "t" "ws://x" ∧
    handleUpgrade (some ["https://a.com"]) ⟨some "t", some "ws://x", some "", none⟩ ≠
      UpgradeResult.rejected 403 "Origin not allowed" := by
  exact ⟨by decide, by decide⟩

/-- Witness for C6 (amended): the spec's own examples — disallowed
origin rejected 403, no Origin header accepted under a configured
list, and any origin accepted when no list is configured. -/
theorem origin_allowlist_witness :
    handleUpgrade (some ["https://a.com"])
        ⟨some "t", some "ws://x", some "https://b.com", none⟩ =
      UpgradeResult.rejected 403 "Origin not allowed" ∧
    handleUpgrade (some ["https://a.com"]) ⟨some "t", some "ws://x", none, none⟩ =
      UpgradeResult.accepted "t" "ws://x" ∧
    handleUpgrade none ⟨some "t", some "ws://x", some "https://b.com", none⟩ =
      UpgradeResult.accepted "t" "ws://x" := by
  refine ⟨(origin_allowlist_amended (some ["https://a.com"])
      ⟨some "t", some "ws://x", some "https://b.com", none⟩ (by decide)).1
      ["https://a.com"] "https://b.com" rfl rfl (by decide) (by decide) (by decide),
    (origin_allowlist_amended (some ["https://a.com"])
      ⟨some "t", some "ws://x", none, none⟩ (by decide)).2.1 rfl,
    (origin_allowlist_amended none
      ⟨some "t", some "ws://x", some "https://b.com", none⟩ (by decide)).2.2 rfl⟩

/-! ### C3 -/

/-- C3 (amended). Header injection: for every accepted session the
outbound upstream handshake carries `X-Auth-Token` equal exactly to
the inbound `token` query value, and when the inbound handshake
carried a *non-empty* `Sec-WebSocket-Protocol` header the outbound
handshake carries the same value under the same header.  (As
originally stated the claim is false: a present-but-empty subprotocol
header is falsy in the source's guard and is not forwarded — see the
counterexample.) -/
theorem header_injection_amended (cfg : Option (List String)) (req : UpgradeRequest)
    (t sv : String) (h : handleUpgrade cfg req = UpgradeResult.accepted t sv) :
    req.token = some t ∧
    (buildUpstreamHeaders t req.subprotocol).lookup "X-Auth-Token" = some t ∧
    (∀ sp, req.subprotocol = some sp → sp ≠ "" →
      (buildUpstreamHeaders t req.subprotocol).lookup "Sec-WebSocket-Protocol" =
        some sp) := by
  obtain ⟨htok, ht, _⟩ := handleUpgrade_accepted cfg req t sv h
  have hreq : req.token = some t := by
    cases hr : req.token with
    | none => rw [hr] at htok; simp [truthy] at htok
    | some v => rw [hr] at ht; simp at ht; rw [ht]
  have hkey : ("Sec-WebSocket-Protocol" == "X-Auth-Token") = false := by decide
  refine ⟨hreq, ?_, ?_⟩
  · simp [buildUpstreamHeaders, List.lookup]
  · intro sp hsp hne
    simp [buildUpstreamHeaders, hsp, truthy, hne, List.lookup, hkey]

/-- Counterexample to C3 as stated: an accepted request whose inbound
`Sec-WebSocket-Protocol` header is present but empty produces outbound
headers with no `Sec-WebSocket-Protocol` entry at all. -/
theorem header_injection_cex :
    handleUpgrade none ⟨some "t", some "ws://x", none, some ""⟩ =
      UpgradeResult.accepted "t" "ws://x" ∧
    (buildUpstreamHeaders "t" (some "")).lookup "Sec-WebSocket-Protocol" = none := by
  exact ⟨by decide, by decide⟩

/-- Witness for C3 (amended): an accepted request with subprotocol
"chat" gets both headers injected. -/
theorem header_injection_witness :
    (buildUpstreamHeaders "tok" (some "chat")).lookup "X-Auth-Token" = some "tok" ∧
    (buildUpstreamHeaders "tok" (some "chat")).lookup "Sec-WebSocket-Protocol" =
      some "chat" := by
  have P := header_injection_amended none ⟨some "tok", some "ws://x", none, some "chat"⟩
    "tok" "ws://x" (by decide)
  exact ⟨P.2.1, P.2.2 "chat" rfl (by decide)⟩

/-! ### C9 -/

/-- C9 (amended). Token masking: tokens of length at most 8 are
rendered "****"; longer tokens show only their first 4 and last 4
characters around "..."; and the masked form differs from the full
token except when the token is itself already in masked shape — the
string "****", or an 11-character string whose middle three characters
are "..." .  (As originally stated — "the masked form never equals the
full token" — the claim is false at such tokens; see the
counterexample.  Both log sites that mention the token, src/proxy.js
lines 109 and 129, log `maskToken(token)` and never the raw token.) -/
theorem mask_token_amended (t : List Char) :
    (t.length ≤ 8 → maskToken t = "****".toList) ∧
    (8 < t.length →
      maskToken t = t.take 4 ++ "...".toList ++ t.drop (t.length - 4)) ∧
    (maskToken t = t →
      t = "****".toList ∨
        (t.length = 11 ∧ (t.drop 4).take 3 = "...".toList)) := by
  refine ⟨?_, ?_, ?_⟩
  · intro h; simp [maskToken, h]
  · intro h; rw [maskToken, if_neg (by omega)]
  · intro h
    by_cases hl : t.length ≤ 8
    · left
      rw [maskToken, if_pos hl] at h
      exact h.symm
    · right
      rw [maskToken, if_neg hl] at h
      push_neg at hl
      have h3 : ("...".toList).length = 3 := by decide
      have h4 : (t.take 4).length = 4 := by
        rw [List.length_take]; omega
      have h5 : (t.drop (t.length - 4)).length = 4 := by
        rw [List.length_drop]; omega
      have hlen : t.length = 11 := by
        have hc := congrArg List.length h
        simp only [List.length_append] at hc
        rw [h3, h4, h5] at hc
        omega
      refine ⟨hlen, ?_⟩
      rw [List.append_assoc] at h
      have hdrop : t.drop 4 = "...".toList ++ t.drop (t.length - 4) := by
        conv_lhs => rw [← h]
        exact List.drop_left' h4
      rw [hdrop]
      exact List.take_left' h3

/-- Counterexample to C9 as stated: tokens already in masked shape are
fixed points of `maskToken` — the masked form equals the full token. -/
theorem mask_token_cex :
    maskToken ("****".toList) = "****".toList ∧
    maskToken ("abcd...efgh".toList) = "abcd...efgh".toList := by
  exact ⟨by decide, by decide⟩

/-- Witness for C9 (amended): a short token masks to "****", a long one
to its first and last four characters, and the mask-shaped token
"****" realizes the exception of the never-equals clause. -/
theorem mask_token_amended_witness :
    maskToken ("ab".toList) = "****".toList ∧
    maskToken ("secrettoken12".toList) =
      ("secrettoken12".toList).take 4 ++ "...".toList ++
        ("secrettoken12".toList).drop (("secrettoken12".toList).length - 4) ∧
    ("****".toList = "****".toList ∨
      (("****".toList).length = 11 ∧
        (("****".toList).drop 4).take 3 = "...".toList)) :=
  ⟨(mask_token_amended ("ab".toList)).1 (by decide),
   (mask_token_amended ("secrettoken12".toList)).2.1 (by decide),
   (mask_token_amended ("****".toList)).2.2 (by decide)⟩

/-- Witness for C1: the session trace of the spec's example — upstream
closes with code 1000 reason "done", then a late client error arrives —
performs exactly the single close call `closeClient 1000 "done"`; the
code and reason of the first trigger are propagated verbatim. -/
theorem close_propagation_one_shot_witness :
    (run initSession [Event.upstreamClose (some 1000) (some "done"),
        Event.clientError]).2.filter Action.isClose =
      [Action.closeClient 1000 "done"] ∧
    mappedClose (Event.upstreamClose (some 1000) (some "done")) =
      Action.closeClient 1000 "done" := by
  constructor
  · exact (close_propagation_one_shot
      [Event.upstreamClose (some 1000) (some "done"), Event.clientError]).1.trans
      (by decide)
  · exact ((close_propagation_one_shot []).2.2.1 1000 "done" (by decide)).1

end WsProxy
